import Mathlib

/-
Verification of the `SQLite3DB` wrapper class (sqlite3_db.py).

The module is a facade over the sqlite3 engine: it manages one
connection/cursor pair and assembles SQL strings for table operations.
We embed the class shallowly:

* Python runtime values that can flow through the wrapper are modelled by
  the inductive `PyVal`; Python exceptions by `PyErr`.
* The underlying sqlite engine is abstracted by an `Engine`: a function
  from an SQL string and a bound parameter list to the list of result
  rows that executing the statement produces.
* The mutable object state (`_db_uri`, `_conn`, `_cur`, `_isConnect`) is
  the record `DBState`; the cursor's unfetched rows are stored in `cur`,
  and the state additionally records the observable history of executed
  statements (`trace`) and the number of `commit()` calls (`commits`).
* Each method becomes a function `... → DBState → Except PyErr α × DBState`:
  the Lean result carries both the Python return value (or the raised
  exception) and the object state at the moment the method returns or
  raises, mirroring that Python exceptions leave prior mutations in place.
-/

/-- Python runtime values relevant to the wrapper.  `cursorRef` and
`connRef` stand for the handle's own cursor/connection objects, which the
methods return and call fetch methods on; they are not data values. -/
inductive PyVal where
  | none
  | bool (b : Bool)
  | int (n : Int)
  | str (s : String)
  | tuple (xs : List PyVal)
  | list (xs : List PyVal)
  | dict (entries : List (PyVal × PyVal))
  | cursorRef
  | connRef

/-- Python exceptions the wrapper can raise or propagate. -/
inductive PyErr where
  | typeError
  | valueError
  | attributeError
  | lookupError
deriving DecidableEq

/-- `v is None`. -/
def PyVal.isNone : PyVal → Bool
  | .none => true
  | _ => false

/-- `isinstance(v, tuple)`. -/
def PyVal.isTuple : PyVal → Bool
  | .tuple _ => true
  | _ => false

/-- `isinstance(v, dict)` (an `OrderedDict` in the source). -/
def PyVal.isDict : PyVal → Bool
  | .dict _ => true
  | _ => false

/-- `isinstance(v, int)`; Python's `bool` is a subclass of `int`. -/
def PyVal.isInt : PyVal → Bool
  | .int _ => true
  | .bool _ => true
  | _ => false

/-- The elements of a tuple value (only applied to tuples). -/
def PyVal.tupleElems : PyVal → List PyVal
  | .tuple xs => xs
  | _ => []

mutual

/-- Python `repr` on `PyVal` (string escaping inside `repr` of a string is
not modelled; no claim evaluates it on a string containing quotes). -/
def pyRepr : PyVal → String
  | .none => "None"
  | .bool true => "True"
  | .bool false => "False"
  | .int n => toString n
  | .str s => "'" ++ s ++ "'"
  | .tuple [x] => "(" ++ pyRepr x ++ ",)"
  | .tuple xs => "(" ++ pyReprList xs ++ ")"
  | .list xs => "[" ++ pyReprList xs ++ "]"
  | .dict es => "\x7b" ++ pyReprPairs es ++ "\x7d"
  | .cursorRef => "<sqlite3.Cursor object>"
  | .connRef => "<sqlite3.Connection object>"

/-- Comma-separated `repr`s of a list of values. -/
def pyReprList : List PyVal → String
  | [] => ""
  | [x] => pyRepr x
  | x :: xs => pyRepr x ++ ", " ++ pyReprList xs

/-- Comma-separated `k: v` pairs for dict `repr`. -/
def pyReprPairs : List (PyVal × PyVal) → String
  | [] => ""
  | [(k, v)] => pyRepr k ++ ": " ++ pyRepr v
  | (k, v) :: es => pyRepr k ++ ": " ++ pyRepr v ++ ", " ++ pyReprPairs es

end

/-- Python `str()` as used by `'{}'.format(...)`: identity on strings,
`repr`-based on everything else. -/
def pyStr : PyVal → String
  | .str s => s
  | v => pyRepr v

/-- Python iteration `iter(v)` materialised as a list: tuples and lists
yield their elements, strings their characters, dicts their keys; the
remaining (non-iterable data) values raise `TypeError`. -/
def pyIter : PyVal → Except PyErr (List PyVal)
  | .tuple xs => .ok xs
  | .list xs => .ok xs
  | .str s => .ok (s.toList.map fun c => .str (String.singleton c))
  | .dict es => .ok (es.map Prod.fst)
  | _ => .error .typeError

/-- The builtin `tuple(v)` constructor call. -/
def pyTuple (v : PyVal) : Except PyErr PyVal :=
  (pyIter v).map PyVal.tuple

/-- `list(zip(a, b))`: iterates both arguments and pairs them, truncating
to the shorter one; raises `TypeError` if either is not iterable. -/
def pyZip (a b : PyVal) : Except PyErr (List (PyVal × PyVal)) :=
  match pyIter a, pyIter b with
  | .ok xs, .ok ys => .ok (xs.zip ys)
  | .error e, _ => .error e
  | .ok _, .error e => .error e

/-- Python `str.startswith(pre)`; written via structurally recursive
list operations so that it evaluates definitionally. -/
def pyStartswith (s pre : String) : Bool :=
  pre.toList.isPrefixOf s.toList

/-- The abstracted sqlite engine: executing an SQL string with a list of
bound parameters yields the result rows of the statement. -/
def Engine : Type := String → List PyVal → List PyVal

/-- The mutable state of one `SQLite3DB` instance, plus the observable
execution history. -/
structure DBState where
  db_uri : String
  conn : Option Unit
  cur : Option (List PyVal)
  isConnect : Bool
  trace : List (String × Option (List PyVal))
  commits : Nat

namespace SQLite3DB

/-- `connect(db_uri=None)` (source lines 94-109).  With no URI it only
reassigns `self._conn` (and the body falls through, returning `None`);
with a URI it stores the URI, opens the connection, derives a cursor,
sets `_isConnect = True` and returns the connection. -/
def connect (db_uri : Option String) (s : DBState) : Except PyErr PyVal × DBState :=
  match db_uri with
  | Option.none => (.ok PyVal.none, { s with conn := some () })
  | some u =>
      (.ok PyVal.connRef,
       { s with db_uri := u, conn := some (), cur := some [], isConnect := true })

/-- `__init__(db_uri)` (lines 19-33): initialise the fields, then
`self.connect(self._db_uri)`. -/
def init (db_uri : String) : DBState :=
  (connect (some db_uri)
    { db_uri := db_uri, conn := Option.none, cur := Option.none,
      isConnect := false, trace := [], commits := 0 }).2

/-- `self._conn.commit()`: attribute access on `None` raises
`AttributeError`; otherwise one commit is recorded. -/
def conn_commit (s : DBState) : Except PyErr Unit × DBState :=
  match s.conn with
  | Option.none => (.error .attributeError, s)
  | some _ => (.ok (), { s with commits := s.commits + 1 })

/-- `close()` (lines 111-120): if connected, commit, close, null out the
connection and cursor and clear the flag; otherwise do nothing. -/
def close (s : DBState) : Except PyErr Unit × DBState :=
  if s.isConnect then
    match s.conn with
    | Option.none => (.error .attributeError, s)
    | some _ =>
        (.ok (), { s with commits := s.commits + 1, conn := Option.none,
                          cur := Option.none, isConnect := false })
  else (.ok (), s)

/-- `is_connected()` (lines 122-127). -/
def is_connected (s : DBState) : Bool := s.isConnect

/-- The parameter-shape snippet duplicated in `execute` (lines 183-187)
and `executemany` (lines 200-204):

    if not isinstance(params, tuple):
        params = tuple(params)
        if not isinstance(params, tuple):
            raise ValueError(...)

A tuple passes through; otherwise `tuple(params)` is attempted (which can
itself raise `TypeError`) and the result is re-checked. -/
def coerce_params (params : PyVal) : Except PyErr PyVal :=
  if params.isTuple then .ok params
  else
    match pyTuple params with
    | .error e => .error e
    | .ok params2 =>
        if params2.isTuple then .ok params2 else .error .valueError

/-- `cur.execute(sql)` / `cur.execute(sql, params)` followed by
`self._conn.commit()` (the tail of `execute`, lines 180-192): looking up
`.execute` on a `None` cursor raises `AttributeError`; otherwise the
engine runs the statement, the cursor now holds its result rows, the
statement is recorded in the trace and the connection is committed. -/
def cur_execute_run (eng : Engine) (sql : String) (ps : Option (List PyVal))
    (s : DBState) : Except PyErr PyVal × DBState :=
  match s.cur with
  | Option.none => (.error .attributeError, s)
  | some _ =>
      let s2 := { s with cur := some (eng sql (ps.getD [])),
                         trace := s.trace ++ [(sql, ps)] }
      match conn_commit s2 with
      | (.error e, s3) => (.error e, s3)
      | (.ok _, s3) => (.ok PyVal.cursorRef, s3)

/-- `execute(sql, params=None)` (lines 167-192): auto-connect via the
no-URI `connect()` when not connected, fetch the cursor, normalise
`params` when given, execute, commit, and return the cursor. -/
def execute (eng : Engine) (sql : String) (params : Option PyVal)
    (s : DBState) : Except PyErr PyVal × DBState :=
  let s1 := if s.isConnect then s else (connect Option.none s).2
  match params with
  | Option.none => cur_execute_run eng sql Option.none s1
  | some p =>
      match coerce_params p with
      | .error e => (.error e, s1)
      | .ok (.tuple xs) => cur_execute_run eng sql (some xs) s1
      | .ok _ => (.error .typeError, s1)

/-- The call `cur.executemany(args...)` with an explicit argument list.
`sqlite3.Cursor.executemany` requires both the SQL string and the
sequence of parameter rows, so a call with any other number of arguments
raises `TypeError`; on a `None` cursor the attribute lookup raises
`AttributeError` first. -/
def cur_executemany_call (eng : Engine) (args : List PyVal) (s : DBState) :
    Except PyErr Unit × DBState :=
  match s.cur with
  | Option.none => (.error .attributeError, s)
  | some _ =>
      match args with
      | [PyVal.str sql, PyVal.tuple rows] =>
          if rows.all PyVal.isTuple then
            (.ok (), rows.foldl (fun st row =>
              { st with cur := some (eng sql row.tupleElems),
                        trace := st.trace ++ [(sql, some row.tupleElems)] }) s)
          else (.error .typeError, s)
      | _ => (.error .typeError, s)

/-- `executemany(sqls, params)` (lines 194-213): normalise `params`,
auto-connect, then call `cur.executemany(sqls)` — the source passes only
the SQL string — and finally `self.get_connection().commit()`. -/
def executemany (eng : Engine) (sqls : String) (params : PyVal)
    (s : DBState) : Except PyErr PyVal × DBState :=
  match coerce_params params with
  | .error e => (.error e, s)
  | .ok _ =>
      let s1 := if s.isConnect then s else (connect Option.none s).2
      match cur_executemany_call eng [PyVal.str sqls] s1 with
      | (.error e, s2) => (.error e, s2)
      | (.ok _, s2) =>
          match conn_commit s2 with
          | (.error e, s3) => (.error e, s3)
          | (.ok _, s3) => (.ok PyVal.none, s3)

/-- The method call `v.fetchone()` on a Python value `v`: only the
handle's cursor object has a `fetchone` attribute; on it, the next
pending row is returned, or `None` when no row remains. -/
def fetchone_of (v : PyVal) (s : DBState) : Except PyErr PyVal × DBState :=
  match v with
  | .cursorRef =>
      match s.cur with
      | Option.none => (.error .attributeError, s)
      | some [] => (.ok PyVal.none, s)
      | some (r :: rs) => (.ok r, { s with cur := some rs })
  | _ => (.error .attributeError, s)

/-- `fetchone()` (lines 215-217): `self._cur.fetchone()`. -/
def fetchone (s : DBState) : Except PyErr PyVal × DBState :=
  match s.cur with
  | Option.none => (.error .attributeError, s)
  | some [] => (.ok PyVal.none, s)
  | some (r :: rs) => (.ok r, { s with cur := some rs })

/-- The catalog query string built in `exists` (lines 233-238) from four
adjacent string literals. -/
def existsSql : String :=
  "select count(*) from sqlite_master where type='table' and name=?"

/-- `exists(table_name)` (lines 226-245): run the catalog count query
with the table name bound, fetch one row, and return `count is not None`.
(The source method is named `exists`, a reserved word in Lean.) -/
def table_exists (eng : Engine) (table_name : String) (s : DBState) :
    Except PyErr Bool × DBState :=
  match execute eng existsSql (some (.tuple [.str table_name])) s with
  | (.error e, s1) => (.error e, s1)
  | (.ok cur, s1) =>
      match fetchone_of cur s1 with
      | (.error e, s2) => (.error e, s2)
      | (.ok count, s2) => (.ok (!count.isNone), s2)

/-- `sanitize_column(column)` (lines 458-460): `"'{}'".format(str(column))`. -/
def sanitize_column (column : PyVal) : String :=
  "'" ++ pyStr column ++ "'"

/-- `sanitize_value(value)` (lines 462-467): `"''"` for `None`, otherwise
`"'{}'".format(value)`. -/
def sanitize_value (value : PyVal) : String :=
  if value.isNone then "''" else "'" ++ pyStr value ++ "'"

/-- The `for key, val in conditions.items()` loop of
`create_condition_clause_string` (lines 480-484) with the accumulated
clause string: a `None` key raises `ValueError`, any other key appends
`'{} {}, '.format(key, val)`; after the loop the trailing two characters
are sliced off (line 486). -/
def ccs_loop : List (PyVal × PyVal) → String → Except PyErr String
  | [], acc => .ok (acc.dropRight 2)
  | (key, val) :: rest, acc =>
      if key.isNone then .error .valueError
      else ccs_loop rest (acc ++ pyStr key ++ " " ++ pyStr val ++ ", ")

/-- `create_condition_clause_string(conditions)` (lines 469-487): `None`
conditions give the empty clause (early return, before the slice);
otherwise the entries are iterated in insertion order.  Calling
`.items()` on a non-dict would raise `AttributeError`. -/
def create_condition_clause_string (conditions : PyVal) :
    Except PyErr String :=
  match conditions with
  | .none => .ok ""
  | .dict entries => ccs_loop entries ""
  | _ => .error .attributeError

/-- The inner `_label_sanitizer` of `create_table` (lines 260-261). -/
def label_sanitizer (label : String) : String :=
  "'" ++ label ++ "'"

/-- `create_table(table_name, structure)` (lines 247-278): builds
`CREATE TABLE <name> ('<col>' <type>,...)` — the first-iteration flag in
the source joins the column entries with `","` — and executes it. -/
def create_table (eng : Engine) (table_name : String)
    (table_structure : List (String × String)) (s : DBState) :
    Except PyErr PyVal × DBState :=
  let strc := "(" ++ String.intercalate ","
      (table_structure.map fun t => label_sanitizer t.1 ++ " " ++ t.2) ++ ")"
  let sql := "CREATE TABLE " ++ table_name ++ " " ++ strc
  match execute eng sql Option.none s with
  | (.error e, s1) => (.error e, s1)
  | (.ok _, s1) => (.ok PyVal.none, s1)

/-- `create_table_as_text_type(table_name, column_label)` (lines
280-290): zip the labels with an equally long tuple of `"text"` and
delegate to `create_table`. -/
def create_table_as_text_type (eng : Engine) (table_name : String)
    (column_label : List String) (s : DBState) :
    Except PyErr PyVal × DBState :=
  create_table eng table_name
    (column_label.zip (List.replicate column_label.length "text")) s

/-- `drop_table(table_name)` (lines 292-302). -/
def drop_table (eng : Engine) (table_name : String) (s : DBState) :
    Except PyErr PyVal × DBState :=
  match execute eng ("DROP TABLE " ++ table_name) Option.none s with
  | (.error e, s1) => (.error e, s1)
  | (.ok _, s1) => (.ok PyVal.none, s1)

/-- The inner `_select_clause_string` of `select` (lines 351-359): `*`
and column expressions starting with `count(` pass through, any other
column is double-quoted. -/
def _select_clause_string (_column : String) : String :=
  if _column = "*" then _column
  else if pyStartswith _column "count(" then _column
  else "\"" ++ _column ++ "\""

/-- `select(table_name, select_columns, conditions)` (lines 331-378):
`conditions` must be an `OrderedDict` or `TypeError` is raised; the
select clause joins the processed columns with `", "`, the `for/else`
appends `' from {} '.format(table_name)`, the condition clause is
appended, and the statement is executed.  The built cursor is discarded:
the method body has no `return` statement, so the call returns `None`. -/
def select (eng : Engine) (table_name : String)
    (select_columns : List String) (conditions : PyVal) (s : DBState) :
    Except PyErr PyVal × DBState :=
  if !conditions.isDict then (.error .typeError, s)
  else
    let sel :=
      match select_columns with
      | [] => ""
      | c :: cs =>
          _select_clause_string c ++
            String.join (cs.map fun c2 => ", " ++ _select_clause_string c2)
    let sql0 := "select " ++ sel ++ " from " ++ table_name ++ " "
    match create_condition_clause_string conditions with
    | .error e => (.error e, s)
    | .ok where_clause =>
        match execute eng (sql0 ++ where_clause) Option.none s with
        | (.error e, s1) => (.error e, s1)
        | (.ok _, s1) => (.ok PyVal.none, s1)

/-- `select_all(table_name, select_columns=None)` (lines 318-329):
default the columns to `('*',)` and delegate to `select` with an empty
`OrderedDict`. -/
def select_all (eng : Engine) (table_name : String)
    (select_columns : Option (List String)) (s : DBState) :
    Except PyErr PyVal × DBState :=
  select eng table_name (select_columns.getD ["*"]) (.dict []) s

/-- `count(table_name)` (lines 304-316):
`query = self.select_all(table_name, ('count(*)',)).fetchone()`, then an
`int` result is returned as is (Python's `bool` passes the `int`
check), a tuple yields its first element via `for i in query: return i`
(an empty tuple falls through the whole `if/elif` and returns `None`),
and anything else raises `LookupError`. -/
def count (eng : Engine) (table_name : String) (s : DBState) :
    Except PyErr PyVal × DBState :=
  match select_all eng table_name (some ["count(*)"]) s with
  | (.error e, s1) => (.error e, s1)
  | (.ok ret, s1) =>
      match fetchone_of ret s1 with
      | (.error e, s2) => (.error e, s2)
      | (.ok query, s2) =>
          if query.isInt then (.ok query, s2)
          else
            match query with
            | .tuple [] => (.ok PyVal.none, s2)
            | .tuple (i :: _) => (.ok i, s2)
            | _ => (.error .lookupError, s2)

/-- The inner `_create_clause(vals, type)` of `insert` (lines 394-404):
it accumulates `'('`, then one sanitised entry plus `", "` per value,
slices off the trailing separator and appends `')'` — but the function
has no `return` statement, so the call evaluates to `None` and the built
string is discarded. -/
def _create_clause (vals : List PyVal) (ty : String) : PyVal :=
  let _clause_string :=
    ((vals.foldl (fun acc val =>
        if ty = "COLUMN" then acc ++ sanitize_column val ++ ", "
        else if ty = "VALUE" then acc ++ sanitize_value val ++ ", "
        else acc) "(").dropRight 2) ++ ")"
  PyVal.none

/-- `insert(table_name, columns, values)` (lines 380-425): `columns` and
`values` must both be tuples or `TypeError` is raised; the column clause
is the value of `_create_clause(columns, 'COLUMN')`, the VALUES clause
joins `len(columns)` placeholders `?` with `", "`, and the statement
`'insert into {0} {1} VALUES {2}'` is executed with `values` bound. -/
def insert (eng : Engine) (table_name : String) (columns values : PyVal)
    (s : DBState) : Except PyErr PyVal × DBState :=
  if !columns.isTuple || !values.isTuple then (.error .typeError, s)
  else
    let column_clause_string := _create_clause columns.tupleElems "COLUMN"
    let values_clause_string :=
      "(" ++ String.intercalate ", "
        (List.replicate columns.tupleElems.length "?") ++ ")"
    let sql := "insert into " ++ table_name ++ " " ++
      pyStr column_clause_string ++ " VALUES " ++ values_clause_string
    match execute eng sql (some values) s with
    | (.error e, s1) => (.error e, s1)
    | (.ok _, s1) => (.ok PyVal.none, s1)

/-- `update(table_name, columns, values, where_conds=None)` (lines
427-456): the SET clause is built from `list(zip(columns, values))` —
no tuple check is made on `columns`/`values` — each pair rendered as
`'{0} = {1}, '` with the sanitisers and the trailing separator sliced
off; `where_conds` is `None` (no clause) or must be an `OrderedDict`;
the statement `'update {0} set {1} {2}'` is executed without bound
parameters. -/
def update (eng : Engine) (table_name : String) (columns values : PyVal)
    (where_conds : PyVal) (s : DBState) : Except PyErr PyVal × DBState :=
  match pyZip columns values with
  | .error e => (.error e, s)
  | .ok pairs =>
      let set_clause_string :=
        (pairs.foldl (fun acc cv =>
            acc ++ sanitize_column cv.1 ++ " = " ++ sanitize_value cv.2 ++ ", ")
          "").dropRight 2
      match (match where_conds with
             | .none => Except.ok ""
             | .dict _ => create_condition_clause_string where_conds
             | _ => Except.error PyErr.typeError) with
      | .error e => (.error e, s)
      | .ok where_clause_string =>
          let sql := "update " ++ table_name ++ " set " ++
            set_clause_string ++ " " ++ where_clause_string
          match execute eng sql Option.none s with
          | (.error e, s1) => (.error e, s1)
          | (.ok _, s1) => (.ok PyVal.none, s1)

end SQLite3DB


/-- A concrete engine for witness instances: every statement yields the
single row `(0,)`, as the catalog count query does for a missing table. -/
def zeroCountEngine : Engine := fun _ _ => [PyVal.tuple [PyVal.int 0]]

/-- The spec's state invariant (§3): the cursor is valid (non-null) iff
`connected` is true, and the connection is valid (non-null) iff
`connected` is true. -/
def StateInv (s : DBState) : Prop :=
  s.conn.isSome = s.isConnect ∧ s.cur.isSome = s.isConnect

/-- `pyIter` only ever raises `TypeError`. -/
theorem pyIter_error_eq {p : PyVal} {e : PyErr} (h : pyIter p = .error e) :
    e = .typeError := by
  cases p <;> simp [pyIter] at h <;> exact h.symm

/-- A successful `tuple(...)` call returns a tuple. -/
theorem pyTuple_ok_isTuple {p t : PyVal} (h : pyTuple p = .ok t) :
    t.isTuple = true := by
  unfold pyTuple at h
  cases hi : pyIter p with
  | ok xs => rw [hi] at h; cases h; rfl
  | error e => rw [hi] at h; cases h

/-- A failing `tuple(...)` call raises `TypeError`. -/
theorem pyTuple_error_eq {p : PyVal} {e : PyErr} (h : pyTuple p = .error e) :
    e = .typeError := by
  unfold pyTuple at h
  cases hi : pyIter p with
  | ok xs => rw [hi] at h; cases h
  | error e' => rw [hi] at h; cases h; exact pyIter_error_eq hi

/-- Computation rule for the execute-and-commit tail on a live
cursor/connection pair. -/
theorem cur_execute_run_eq {eng : Engine} {sql : String}
    {ps : Option (List PyVal)} {s : DBState} {rows : List PyVal} {u : Unit}
    (hcur : s.cur = some rows) (hconn : s.conn = some u) :
    SQLite3DB.cur_execute_run eng sql ps s =
      (.ok PyVal.cursorRef,
       { s with cur := some (eng sql (ps.getD [])),
                trace := s.trace ++ [(sql, ps)],
                commits := s.commits + 1 }) := by
  unfold SQLite3DB.cur_execute_run SQLite3DB.conn_commit
  rw [hcur]
  dsimp only
  rw [hconn]

/-- Computation rule for `execute` without parameters on a connected
state. -/
theorem execute_noparams_eq {eng : Engine} {sql : String} {s : DBState}
    {rows : List PyVal} {u : Unit}
    (hc : s.isConnect = true) (hcur : s.cur = some rows)
    (hconn : s.conn = some u) :
    SQLite3DB.execute eng sql Option.none s =
      (.ok PyVal.cursorRef,
       { s with cur := some (eng sql []),
                trace := s.trace ++ [(sql, Option.none)],
                commits := s.commits + 1 }) := by
  unfold SQLite3DB.execute
  rw [hc]
  show SQLite3DB.cur_execute_run eng sql Option.none s = _
  rw [cur_execute_run_eq hcur hconn, hc]
  rfl

/-- Computation rule for `execute` with an (already tuple-shaped)
parameter value on a connected state. -/
theorem execute_tuple_params_eq {eng : Engine} {sql : String} {s : DBState}
    {xs rows : List PyVal} {u : Unit}
    (hc : s.isConnect = true) (hcur : s.cur = some rows)
    (hconn : s.conn = some u) :
    SQLite3DB.execute eng sql (some (.tuple xs)) s =
      (.ok PyVal.cursorRef,
       { s with cur := some (eng sql xs),
                trace := s.trace ++ [(sql, some xs)],
                commits := s.commits + 1 }) := by
  unfold SQLite3DB.execute
  rw [hc]
  show SQLite3DB.cur_execute_run eng sql (some xs) s = _
  rw [cur_execute_run_eq hcur hconn, hc]
  rfl

/-- If the invariant holds and the execute-and-commit tail returns
normally, the invariant still holds: only the pending rows, the trace and
the commit counter change. -/
theorem stateInv_cur_execute_run {eng : Engine} {sql : String}
    {ps : Option (List PyVal)} {s : DBState} {v : PyVal} {s' : DBState}
    (h : StateInv s)
    (hok : SQLite3DB.cur_execute_run eng sql ps s = (.ok v, s')) :
    StateInv s' := by
  cases hcur : s.cur with
  | none =>
      unfold SQLite3DB.cur_execute_run at hok
      rw [hcur] at hok
      cases hok
  | some rows =>
      have h2 : s.isConnect = true := by
        have hx := h.2
        rw [hcur] at hx
        exact hx.symm
      cases hconn : s.conn with
      | none =>
          have hx := h.1
          rw [hconn, h2] at hx
          cases hx
      | some u =>
          rw [cur_execute_run_eq hcur hconn] at hok
          cases hok
          exact ⟨by show s.conn.isSome = s.isConnect; rw [hconn, h2]; rfl,
                 by show (Option.some _).isSome = s.isConnect; rw [h2]; rfl⟩

/-- If the invariant holds and `execute` returns normally, the invariant
still holds. -/
theorem stateInv_execute {eng : Engine} {sql : String} {params : Option PyVal}
    {s : DBState} {v : PyVal} {s' : DBState}
    (h : StateInv s)
    (hok : SQLite3DB.execute eng sql params s = (.ok v, s')) :
    StateInv s' := by
  unfold SQLite3DB.execute at hok
  cases hc : s.isConnect with
  | true =>
      rw [hc] at hok
      simp only [if_true] at hok
      split at hok
      · exact stateInv_cur_execute_run h hok
      · split at hok
        · cases hok
        · exact stateInv_cur_execute_run h hok
        · cases hok
  | false =>
      rw [hc] at hok
      simp only [if_false, Bool.false_eq_true] at hok
      have hcur : s.cur = Option.none := by
        have h2 := h.2
        rw [hc] at h2
        cases hcu : s.cur with
        | none => rfl
        | some c => rw [hcu] at h2; cases h2
      have hcur1 : (SQLite3DB.connect Option.none s).2.cur = Option.none := by
        simp [SQLite3DB.connect, hcur]
      split at hok
      · unfold SQLite3DB.cur_execute_run at hok
        rw [hcur1] at hok
        cases hok
      · split at hok
        · cases hok
        · unfold SQLite3DB.cur_execute_run at hok
          rw [hcur1] at hok
          cases hok
        · cases hok

/-- The constructed handle satisfies the invariant. -/
theorem stateInv_init (uri : String) : StateInv (SQLite3DB.init uri) :=
  ⟨rfl, rfl⟩

/-- `connect` with a URI establishes the invariant. -/
theorem stateInv_connect_some (uri : String) (s : DBState) :
    StateInv (SQLite3DB.connect (some uri) s).2 :=
  ⟨rfl, rfl⟩

/-- `close` preserves the invariant. -/
theorem stateInv_close {s : DBState} (h : StateInv s) :
    StateInv (SQLite3DB.close s).2 := by
  unfold SQLite3DB.close
  cases hc : s.isConnect with
  | false => simpa using h
  | true =>
      cases hconn : s.conn with
      | none =>
          have hx := h.1
          rw [hconn, hc] at hx
          cases hx
      | some u => exact ⟨rfl, rfl⟩

/-- A normally returning `fetchone_of` call preserves the invariant. -/
theorem stateInv_fetchone_of {v : PyVal} {s : DBState} {r : PyVal}
    {s' : DBState} (h : StateInv s)
    (hok : SQLite3DB.fetchone_of v s = (.ok r, s')) :
    StateInv s' := by
  unfold SQLite3DB.fetchone_of at hok
  split at hok
  · split at hok
    · cases hok
    · cases hok
      exact h
    · next r' rs hcur =>
        cases hok
        have h2 : s.isConnect = true := by
          have hx := h.2
          rw [hcur] at hx
          exact hx.symm
        exact ⟨by show s.conn.isSome = s.isConnect; exact h.1,
               by show (Option.some rs).isSome = s.isConnect; rw [h2]; rfl⟩
  · cases hok

/-- A one-argument `cur.executemany(...)` call always raises:
`AttributeError` on a `None` cursor, otherwise the arity `TypeError`. -/
theorem cur_executemany_call_one_arg {eng : Engine} {q : String} {s : DBState} :
    SQLite3DB.cur_executemany_call eng [PyVal.str q] s =
      (match s.cur with
       | Option.none => (.error .attributeError, s)
       | some _ => (.error .typeError, s)) := by
  unfold SQLite3DB.cur_executemany_call
  cases s.cur <;> rfl

/-- `executemany` never returns normally: the source calls
`cur.executemany(sqls)` with the parameter sequence missing, so the call
raises before the commit is reached. -/
theorem executemany_never_ok {eng : Engine} {sqls : String} {params : PyVal}
    {s : DBState} {v : PyVal} {s' : DBState}
    (hok : SQLite3DB.executemany eng sqls params s = (.ok v, s')) : False := by
  unfold SQLite3DB.executemany at hok
  split at hok
  · cases hok
  · dsimp only at hok
    rw [cur_executemany_call_one_arg] at hok
    cases hcu : (if s.isConnect = true then s else (SQLite3DB.connect Option.none s).2).cur with
    | none => rw [hcu] at hok; cases hok
    | some c => rw [hcu] at hok; cases hok

/-- A normally returning `select` preserves the invariant. -/
theorem stateInv_select {eng : Engine} {tbl : String} {cols : List String}
    {conds : PyVal} {s : DBState} {v : PyVal} {s' : DBState}
    (h : StateInv s)
    (hok : SQLite3DB.select eng tbl cols conds s = (.ok v, s')) :
    StateInv s' := by
  unfold SQLite3DB.select at hok
  split at hok
  · cases hok
  · dsimp only at hok
    split at hok
    · cases hok
    · split at hok
      · cases hok
      · rename_i heq
        cases hok
        exact stateInv_execute h heq

/-- A normally returning `select_all` preserves the invariant. -/
theorem stateInv_select_all {eng : Engine} {tbl : String}
    {cols : Option (List String)} {s : DBState} {v : PyVal} {s' : DBState}
    (h : StateInv s)
    (hok : SQLite3DB.select_all eng tbl cols s = (.ok v, s')) :
    StateInv s' :=
  stateInv_select h hok

/-- A normally returning `count` preserves the invariant. -/
theorem stateInv_count {eng : Engine} {tbl : String} {s : DBState}
    {v : PyVal} {s' : DBState}
    (h : StateInv s)
    (hok : SQLite3DB.count eng tbl s = (.ok v, s')) :
    StateInv s' := by
  unfold SQLite3DB.count at hok
  split at hok
  · cases hok
  · rename_i heq1
    split at hok
    · cases hok
    · rename_i heq2
      have h1 := stateInv_select_all h heq1
      have h2 := stateInv_fetchone_of h1 heq2
      split at hok
      · cases hok
        exact h2
      · split at hok
        · cases hok
          exact h2
        · cases hok
          exact h2
        · cases hok

/-- A normally returning `table_exists` preserves the invariant. -/
theorem stateInv_table_exists {eng : Engine} {tbl : String} {s : DBState}
    {v : Bool} {s' : DBState}
    (h : StateInv s)
    (hok : SQLite3DB.table_exists eng tbl s = (.ok v, s')) :
    StateInv s' := by
  unfold SQLite3DB.table_exists at hok
  split at hok
  · cases hok
  · rename_i heq1
    split at hok
    · cases hok
    · rename_i heq2
      cases hok
      exact stateInv_fetchone_of (stateInv_execute h heq1) heq2

/-- A normally returning `create_table` preserves the invariant. -/
theorem stateInv_create_table {eng : Engine} {tbl : String}
    {strc : List (String × String)} {s : DBState} {v : PyVal} {s' : DBState}
    (h : StateInv s)
    (hok : SQLite3DB.create_table eng tbl strc s = (.ok v, s')) :
    StateInv s' := by
  unfold SQLite3DB.create_table at hok
  dsimp only at hok
  split at hok
  · cases hok
  · rename_i heq
    cases hok
    exact stateInv_execute h heq

/-- A normally returning `create_table_as_text_type` preserves the
invariant. -/
theorem stateInv_create_table_as_text_type {eng : Engine} {tbl : String}
    {labels : List String} {s : DBState} {v : PyVal} {s' : DBState}
    (h : StateInv s)
    (hok : SQLite3DB.create_table_as_text_type eng tbl labels s = (.ok v, s')) :
    StateInv s' :=
  stateInv_create_table h hok

/-- A normally returning `drop_table` preserves the invariant. -/
theorem stateInv_drop_table {eng : Engine} {tbl : String} {s : DBState}
    {v : PyVal} {s' : DBState}
    (h : StateInv s)
    (hok : SQLite3DB.drop_table eng tbl s = (.ok v, s')) :
    StateInv s' := by
  unfold SQLite3DB.drop_table at hok
  split at hok
  · cases hok
  · rename_i heq
    cases hok
    exact stateInv_execute h heq

/-- A normally returning `insert` preserves the invariant. -/
theorem stateInv_insert {eng : Engine} {tbl : String} {cols vals : PyVal}
    {s : DBState} {v : PyVal} {s' : DBState}
    (h : StateInv s)
    (hok : SQLite3DB.insert eng tbl cols vals s = (.ok v, s')) :
    StateInv s' := by
  unfold SQLite3DB.insert at hok
  split at hok
  · cases hok
  · dsimp only at hok
    split at hok
    · cases hok
    · rename_i heq
      cases hok
      exact stateInv_execute h heq

/-- A normally returning `update` preserves the invariant. -/
theorem stateInv_update {eng : Engine} {tbl : String} {cols vals conds : PyVal}
    {s : DBState} {v : PyVal} {s' : DBState}
    (h : StateInv s)
    (hok : SQLite3DB.update eng tbl cols vals conds s = (.ok v, s')) :
    StateInv s' := by
  unfold SQLite3DB.update at hok
  split at hok
  · cases hok
  · dsimp only at hok
    split at hok
    · cases hok
    · split at hok
      · cases hok
      · rename_i heq
        cases hok
        exact stateInv_execute h heq

/-- C4 (counterexample): the claimed invariant — cursor valid iff
connected, connection valid iff connected — is not preserved by every
operation.  On the closed handle (which satisfies the invariant),
`connect()` without a URI opens a connection but leaves `connected`
false and the cursor unset, so the connection half of the invariant
fails afterwards. -/
theorem connect_no_uri_breaks_invariant :
    StateInv (SQLite3DB.close (SQLite3DB.init "test.db")).2 ∧
    ¬ StateInv (SQLite3DB.connect Option.none
        (SQLite3DB.close (SQLite3DB.init "test.db")).2).2 :=
  ⟨⟨rfl, rfl⟩, fun hinv => absurd hinv.1 (by decide)⟩

/-- C4 (amended): the invariant — cursor valid iff connected, connection
valid iff connected — holds after construction, is established by
`connect` with a URI, and is preserved by `close` and by every
statement-executing operation (`execute`, `executemany`, `exists`,
`create_table`, `create_table_as_text_type`, `drop_table`, `count`,
`select_all`, `select`, `insert`, `update`) whenever that operation
returns normally; `connect` without a URI is excluded, since it sets the
connection while leaving the flag and cursor untouched. -/
theorem stateInv_preserved_by_operations (eng : Engine) (s : DBState)
    (uri sql tbl : String) (params : Option PyVal)
    (pv cols vals conds : PyVal) (selCols : List String)
    (strc : List (String × String)) (labels : List String)
    (h : StateInv s) :
    StateInv (SQLite3DB.init uri)
    ∧ StateInv (SQLite3DB.connect (some uri) s).2
    ∧ StateInv (SQLite3DB.close s).2
    ∧ (∀ v s', SQLite3DB.execute eng sql params s = (.ok v, s') → StateInv s')
    ∧ (∀ v s', SQLite3DB.executemany eng sql pv s = (.ok v, s') → StateInv s')
    ∧ (∀ (v : Bool) s', SQLite3DB.table_exists eng tbl s = (.ok v, s') → StateInv s')
    ∧ (∀ v s', SQLite3DB.create_table eng tbl strc s = (.ok v, s') → StateInv s')
    ∧ (∀ v s', SQLite3DB.create_table_as_text_type eng tbl labels s = (.ok v, s') → StateInv s')
    ∧ (∀ v s', SQLite3DB.drop_table eng tbl s = (.ok v, s') → StateInv s')
    ∧ (∀ v s', SQLite3DB.count eng tbl s = (.ok v, s') → StateInv s')
    ∧ (∀ v s', SQLite3DB.select_all eng tbl (some selCols) s = (.ok v, s') → StateInv s')
    ∧ (∀ v s', SQLite3DB.select eng tbl selCols conds s = (.ok v, s') → StateInv s')
    ∧ (∀ v s', SQLite3DB.insert eng tbl cols vals s = (.ok v, s') → StateInv s')
    ∧ (∀ v s', SQLite3DB.update eng tbl cols vals conds s = (.ok v, s') → StateInv s') :=
  ⟨stateInv_init uri,
   stateInv_connect_some uri s,
   stateInv_close h,
   fun _ _ hok => stateInv_execute h hok,
   fun _ _ hok => absurd hok (fun hk => executemany_never_ok hk),
   fun _ _ hok => stateInv_table_exists h hok,
   fun _ _ hok => stateInv_create_table h hok,
   fun _ _ hok => stateInv_create_table_as_text_type h hok,
   fun _ _ hok => stateInv_drop_table h hok,
   fun _ _ hok => stateInv_count h hok,
   fun _ _ hok => stateInv_select_all h hok,
   fun _ _ hok => stateInv_select h hok,
   fun _ _ hok => stateInv_insert h hok,
   fun _ _ hok => stateInv_update h hok⟩

/-- Witness for the amended C4 theorem at a concrete handle: the
invariant hypothesis is discharged on the freshly constructed handle and
the conclusion is instantiated on construction, close, and a concrete
normally-returning `execute`. -/
theorem stateInv_preserved_by_operations_witness :
    StateInv (SQLite3DB.init "u.db")
    ∧ StateInv (SQLite3DB.close (SQLite3DB.init "w.db")).2
    ∧ StateInv { db_uri := "w.db", conn := some (),
                 cur := some [PyVal.tuple [PyVal.int 0]], isConnect := true,
                 trace := [("select 1", Option.none)], commits := 1 } :=
  ⟨(stateInv_preserved_by_operations zeroCountEngine (SQLite3DB.init "w.db")
      "u.db" "select 1" "t" Option.none (.tuple []) (.tuple []) (.tuple [])
      .none [] [] [] ⟨rfl, rfl⟩).1,
   (stateInv_preserved_by_operations zeroCountEngine (SQLite3DB.init "w.db")
      "u.db" "select 1" "t" Option.none (.tuple []) (.tuple []) (.tuple [])
      .none [] [] [] ⟨rfl, rfl⟩).2.2.1,
   (stateInv_preserved_by_operations zeroCountEngine (SQLite3DB.init "w.db")
      "u.db" "select 1" "t" Option.none (.tuple []) (.tuple []) (.tuple [])
      .none [] [] [] ⟨rfl, rfl⟩).2.2.2.1 PyVal.cursorRef _ rfl⟩

/-- C6: for every connected handle and table name, `exists(table_name)`
returns true precisely when the catalog count query produced a result
row at all — in particular a `(0,)` row yields true — and false only
when fetching the row yields `None` (which, for the count query, means
no row was produced). -/
theorem exists_true_iff_row_returned (eng : Engine) (tbl : String)
    (s : DBState) (rows : List PyVal) (u : Unit)
    (hc : s.isConnect = true) (hcur : s.cur = some rows)
    (hconn : s.conn = some u) :
    (SQLite3DB.table_exists eng tbl s).1 =
      .ok (!((eng SQLite3DB.existsSql [PyVal.str tbl]).headD PyVal.none).isNone) := by
  unfold SQLite3DB.table_exists
  rw [execute_tuple_params_eq hc hcur hconn]
  unfold SQLite3DB.fetchone_of
  cases eng SQLite3DB.existsSql [PyVal.str tbl] <;> rfl

/-- Witness for C6: on a freshly constructed handle, with an engine
whose catalog query returns the single zero-count row `(0,)`, `exists`
returns true. -/
theorem exists_true_iff_row_returned_witness :
    ((SQLite3DB.init "w6.db").isConnect = true)
    ∧ ((SQLite3DB.init "w6.db").cur = some [])
    ∧ ((SQLite3DB.init "w6.db").conn = some ())
    ∧ (SQLite3DB.table_exists zeroCountEngine "t" (SQLite3DB.init "w6.db")).1 = .ok true :=
  ⟨rfl, rfl, rfl,
   (exists_true_iff_row_returned zeroCountEngine "t" (SQLite3DB.init "w6.db")
      [] () rfl rfl rfl).trans rfl⟩

/-- C1 (code evaluation): on every connected handle, `count(table_name)`
raises `AttributeError` instead of returning the fetched count: `select`
discards the cursor it builds and returns `None` (its body has no
`return`), so the `.fetchone()` call in `count` is made on `None`.  The
`select count(*)` query itself is executed before the failure. -/
theorem count_raises_attribute_error (eng : Engine) (tbl : String)
    (s : DBState) (rows : List PyVal) (u : Unit)
    (hc : s.isConnect = true) (hcur : s.cur = some rows)
    (hconn : s.conn = some u) :
    (SQLite3DB.count eng tbl s).1 = .error .attributeError := by
  unfold SQLite3DB.count SQLite3DB.select_all SQLite3DB.select
  rw [show SQLite3DB.create_condition_clause_string (PyVal.dict []) = Except.ok "" from rfl]
  dsimp only
  rw [execute_noparams_eq hc hcur hconn]
  rfl

/-- Witness for C1: on a freshly constructed handle the `count` call
raises `AttributeError`, and the count query was executed beforehand. -/
theorem count_raises_attribute_error_witness :
    ((SQLite3DB.init "w1.db").isConnect = true)
    ∧ ((SQLite3DB.init "w1.db").cur = some [])
    ∧ ((SQLite3DB.init "w1.db").conn = some ())
    ∧ (SQLite3DB.count zeroCountEngine "t" (SQLite3DB.init "w1.db")).1 = .error .attributeError
    ∧ (SQLite3DB.count zeroCountEngine "t" (SQLite3DB.init "w1.db")).2.trace
        = [("select count(*) from t ", Option.none)] :=
  ⟨rfl, rfl, rfl,
   count_raises_attribute_error zeroCountEngine "t" (SQLite3DB.init "w1.db") [] () rfl rfl rfl,
   rfl⟩

/-- C2 (code evaluation): for every connected handle, table name and
tuples of columns and values, the statement `insert` builds and executes
is `insert into <table> None VALUES (?, ...)`: the column clause is the
string `None`, not the single-quoted column list, because the inner
`_create_clause` helper builds its clause string but never returns it.
The values are still bound to the positional placeholders. -/
theorem insert_column_clause_is_literal_none (eng : Engine) (t : String)
    (cols vals : List PyVal) (s : DBState) (rows : List PyVal) (u : Unit)
    (hc : s.isConnect = true) (hcur : s.cur = some rows)
    (hconn : s.conn = some u) :
    SQLite3DB.insert eng t (.tuple cols) (.tuple vals) s =
      (.ok PyVal.none,
       { s with
          cur := some (eng ("insert into " ++ t ++ " " ++ "None" ++ " VALUES " ++
            ("(" ++ String.intercalate ", " (List.replicate cols.length "?") ++ ")")) vals),
          trace := s.trace ++ [("insert into " ++ t ++ " " ++ "None" ++ " VALUES " ++
            ("(" ++ String.intercalate ", " (List.replicate cols.length "?") ++ ")"), some vals)],
          commits := s.commits + 1 }) := by
  unfold SQLite3DB.insert
  dsimp only
  rw [execute_tuple_params_eq hc hcur hconn]
  rfl

/-- Witness for C2: on a freshly constructed handle,
`insert("t", ("a","b"), ("1","2"))` executes exactly
`insert into t None VALUES (?, ?)` with `("1","2")` bound. -/
theorem insert_column_clause_is_literal_none_witness :
    ((SQLite3DB.init "w2.db").isConnect = true)
    ∧ ((SQLite3DB.init "w2.db").cur = some [])
    ∧ ((SQLite3DB.init "w2.db").conn = some ())
    ∧ SQLite3DB.insert zeroCountEngine "t" (.tuple [.str "a", .str "b"])
        (.tuple [.str "1", .str "2"]) (SQLite3DB.init "w2.db") =
      (.ok PyVal.none,
       { db_uri := "w2.db", conn := some (),
         cur := some [PyVal.tuple [PyVal.int 0]], isConnect := true,
         trace := [("insert into t None VALUES (?, ?)",
                    some [PyVal.str "1", PyVal.str "2"])],
         commits := 1 }) :=
  ⟨rfl, rfl, rfl,
   (insert_column_clause_is_literal_none zeroCountEngine "t"
      [.str "a", .str "b"] [.str "1", .str "2"] (SQLite3DB.init "w2.db")
      [] () rfl rfl rfl).trans rfl⟩

/-- C3 (code evaluation): whenever `params` passes the tuple coercion,
`executemany` on a connected handle raises `TypeError` and leaves the
state unchanged — no statement is executed and nothing is committed —
because the source calls `cur.executemany(sqls)` without passing the
parameter sequence, and `sqlite3.Cursor.executemany` requires both
arguments. -/
theorem executemany_missing_argument_type_error (eng : Engine)
    (sqls : String) (params p2 : PyVal) (s : DBState) (rows : List PyVal)
    (hco : SQLite3DB.coerce_params params = .ok p2)
    (hc : s.isConnect = true) (hcur : s.cur = some rows) :
    SQLite3DB.executemany eng sqls params s = (.error .typeError, s) := by
  unfold SQLite3DB.executemany
  rw [hco]
  dsimp only
  rw [hc, cur_executemany_call_one_arg]
  simp only [if_true]
  rw [hcur]

/-- Witness for C3: a connected, freshly constructed handle with a
well-formed statement and a tuple of parameter rows still gets
`TypeError`. -/
theorem executemany_missing_argument_type_error_witness :
    (SQLite3DB.coerce_params (.tuple [.tuple [.str "1"]]) = .ok (.tuple [.tuple [.str "1"]]))
    ∧ ((SQLite3DB.init "w3.db").isConnect = true)
    ∧ ((SQLite3DB.init "w3.db").cur = some [])
    ∧ SQLite3DB.executemany zeroCountEngine "insert into t values (?)"
        (.tuple [.tuple [.str "1"]]) (SQLite3DB.init "w3.db")
      = (.error .typeError, SQLite3DB.init "w3.db") :=
  ⟨rfl, rfl, rfl,
   executemany_missing_argument_type_error zeroCountEngine
     "insert into t values (?)" (.tuple [.tuple [.str "1"]])
     (.tuple [.tuple [.str "1"]]) (SQLite3DB.init "w3.db") [] rfl rfl rfl⟩

/-- C5 (counterexample): a conditions mapping containing the empty-string
key does NOT fail: the source only raises for a `None` key, so
`{"": "x"}` is accepted and yields the clause `" x"` (empty key, space,
value). -/
theorem empty_key_condition_clause_accepted :
    SQLite3DB.create_condition_clause_string (.dict [(.str "", .str "x")]) = .ok " x"
    ∧ SQLite3DB.create_condition_clause_string (.dict [(.str "", .str "x")])
        ≠ .error .valueError :=
  ⟨rfl, fun h => nomatch h⟩

/-- The loop of `create_condition_clause_string` raises `ValueError` as
soon as it reaches a `None` key, whatever has been accumulated. -/
theorem ccs_loop_none_key (entries : List (PyVal × PyVal)) :
    ∀ acc : String, (∃ p ∈ entries, p.1 = PyVal.none) →
      SQLite3DB.ccs_loop entries acc = .error .valueError := by
  induction entries with
  | nil =>
      intro acc h
      rcases h with ⟨p, hp, _⟩
      cases hp
  | cons kv rest ih =>
      intro acc h
      obtain ⟨k, v⟩ := kv
      by_cases hk : k.isNone = true
      · simp [SQLite3DB.ccs_loop, hk]
      · obtain ⟨p, hp, hnone⟩ := h
        rcases List.mem_cons.mp hp with heq | hmem
        · rw [heq] at hnone
          have hkn : k = PyVal.none := hnone
          rw [hkn] at hk
          exact absurd rfl hk
        · simp only [SQLite3DB.ccs_loop, hk, Bool.false_eq_true, if_false]
          exact ih _ ⟨p, hmem, hnone⟩

/-- C5 (amended): `create_condition_clause_string` fails with a value
error when the conditions mapping contains a `None` (absent) key, before
any SQL statement is executed; an empty-string key, by contrast, is
accepted (see the counterexample). -/
theorem none_key_condition_clause_value_error
    (entries : List (PyVal × PyVal))
    (h : ∃ p ∈ entries, p.1 = PyVal.none) :
    SQLite3DB.create_condition_clause_string (.dict entries) = .error .valueError := by
  unfold SQLite3DB.create_condition_clause_string
  exact ccs_loop_none_key entries "" h

/-- Witness for the amended C5 at the concrete mapping `{None: "x"}`. -/
theorem none_key_condition_clause_value_error_witness :
    (∃ p ∈ [((PyVal.none : PyVal), PyVal.str "x")], p.1 = PyVal.none)
    ∧ SQLite3DB.create_condition_clause_string (.dict [(PyVal.none, PyVal.str "x")])
        = .error .valueError :=
  ⟨⟨(PyVal.none, PyVal.str "x"), List.mem_singleton.mpr rfl, rfl⟩,
   none_key_condition_clause_value_error [(PyVal.none, PyVal.str "x")]
     ⟨(PyVal.none, PyVal.str "x"), List.mem_singleton.mpr rfl, rfl⟩⟩

/-- C7 (counterexample): on a closed (disconnected) handle, `execute`
with coercible non-tuple params does not run the statement: the no-URI
auto-connect leaves the cursor `None`, so the call raises
`AttributeError` after the coercion succeeds, and nothing is executed
(the trace stays empty). -/
theorem execute_coercible_params_closed_handle_fails :
    pyTuple (PyVal.list [PyVal.int 1]) = .ok (.tuple [PyVal.int 1])
    ∧ (SQLite3DB.execute zeroCountEngine "select 1" (some (.list [.int 1]))
        (SQLite3DB.close (SQLite3DB.init "c7.db")).2).1 = .error .attributeError
    ∧ (SQLite3DB.execute zeroCountEngine "select 1" (some (.list [.int 1]))
        (SQLite3DB.close (SQLite3DB.init "c7.db")).2).2.trace = [] :=
  ⟨rfl, rfl, rfl⟩

/-- C7 (amended): on a connected handle, `execute(sql, params)` with a
non-tuple `params` behaves exactly as claimed: if `tuple(params)`
succeeds, the statement runs with the coerced tuple bound and the cursor
is returned; if the coercion raises, `execute` propagates that error
with the state unchanged, before any statement is executed.  (On a
disconnected handle the broken no-URI auto-connect makes even the
coercible case fail with an attribute error; see the counterexample.) -/
theorem execute_param_coercion_on_connected_handle (eng : Engine)
    (sql : String) (p : PyVal) (s : DBState) (rows : List PyVal) (u : Unit)
    (hp : p.isTuple = false) (hc : s.isConnect = true)
    (hcur : s.cur = some rows) (hconn : s.conn = some u) :
    (∀ xs, pyTuple p = .ok (.tuple xs) →
       SQLite3DB.execute eng sql (some p) s =
         (.ok PyVal.cursorRef,
          { s with cur := some (eng sql xs),
                   trace := s.trace ++ [(sql, some xs)],
                   commits := s.commits + 1 }))
    ∧ (∀ e, pyTuple p = .error e →
         SQLite3DB.execute eng sql (some p) s = (.error e, s)) := by
  constructor
  · intro xs hxs
    unfold SQLite3DB.execute SQLite3DB.coerce_params
    rw [hc]
    dsimp only
    rw [hp, hxs]
    dsimp only
    show SQLite3DB.cur_execute_run eng sql (some xs) s = _
    rw [cur_execute_run_eq hcur hconn, hc]
    rfl
  · intro e he
    unfold SQLite3DB.execute SQLite3DB.coerce_params
    rw [hc]
    dsimp only
    rw [hp, he]
    rfl

/-- Witness for the amended C7: on a freshly constructed handle, the
one-element list `[1]` is coerced to `(1,)` and the statement runs with
it bound, while the non-iterable scalar `5` raises `TypeError` and
leaves the handle untouched. -/
theorem execute_param_coercion_on_connected_handle_witness :
    ((PyVal.list [PyVal.int 1]).isTuple = false)
    ∧ SQLite3DB.execute zeroCountEngine "select 1" (some (.list [.int 1]))
        (SQLite3DB.init "w7.db")
      = (.ok PyVal.cursorRef,
         { db_uri := "w7.db", conn := some (),
           cur := some [PyVal.tuple [PyVal.int 0]], isConnect := true,
           trace := [("select 1", some [PyVal.int 1])], commits := 1 })
    ∧ ((PyVal.int 5).isTuple = false)
    ∧ SQLite3DB.execute zeroCountEngine "select 1" (some (.int 5))
        (SQLite3DB.init "w7.db")
      = (.error .typeError, SQLite3DB.init "w7.db") :=
  ⟨rfl,
   ((execute_param_coercion_on_connected_handle zeroCountEngine "select 1"
      (.list [.int 1]) (SQLite3DB.init "w7.db") [] () rfl rfl rfl rfl).1
      [PyVal.int 1] rfl).trans rfl,
   rfl,
   (execute_param_coercion_on_connected_handle zeroCountEngine "select 1"
      (.int 5) (SQLite3DB.init "w7.db") [] () rfl rfl rfl rfl).2
      .typeError rfl⟩

/-- The loop of `create_condition_clause_string` over string-keyed
entries appends `"<key> <value>, "` per entry to the accumulator and
finally strips the last two characters. -/
theorem ccs_loop_str_entries (entries : List (String × String)) :
    ∀ acc : String,
      SQLite3DB.ccs_loop (entries.map fun p => (PyVal.str p.1, PyVal.str p.2)) acc =
        .ok ((acc ++ entries.foldr (fun p t => p.1 ++ " " ++ p.2 ++ ", " ++ t) "").dropRight 2) := by
  induction entries with
  | nil =>
      intro acc
      simp [SQLite3DB.ccs_loop]
  | cons p rest ih =>
      intro acc
      simp only [List.map_cons, List.foldr_cons, SQLite3DB.ccs_loop, PyVal.isNone, pyStr,
        Bool.false_eq_true, if_false]
      rw [ih]
      simp [String.append_assoc]

/-- C8: for an ordered mapping with (non-empty) string keys,
`create_condition_clause_string` returns the entries rendered as
`"<key> <value>, "`, concatenated in insertion order, with the trailing
two-character separator stripped. -/
theorem condition_clause_is_ordered_concatenation
    (entries : List (String × String))
    (h : ∀ p ∈ entries, p.1 ≠ "") :
    SQLite3DB.create_condition_clause_string
        (.dict (entries.map fun p => (PyVal.str p.1, PyVal.str p.2)))
      = .ok ((entries.foldr (fun p t => p.1 ++ " " ++ p.2 ++ ", " ++ t) "").dropRight 2) := by
  show SQLite3DB.ccs_loop (entries.map fun p => (PyVal.str p.1, PyVal.str p.2)) "" = _
  rw [ccs_loop_str_entries]
  rw [String.empty_append]

/-- Witness for C8 at the spec's §8 example: the two-entry mapping
yields exactly `where "a"="b", or "c"="d"`. -/
theorem condition_clause_is_ordered_concatenation_witness :
    (∀ p ∈ [("where", "\"a\"=\"b\""), ("or", "\"c\"=\"d\"")], Prod.fst p ≠ "")
    ∧ SQLite3DB.create_condition_clause_string
        (.dict [(.str "where", .str "\"a\"=\"b\""), (.str "or", .str "\"c\"=\"d\"")])
      = .ok "where \"a\"=\"b\", or \"c\"=\"d\"" :=
  ⟨by decide,
   (condition_clause_is_ordered_concatenation
      [("where", "\"a\"=\"b\""), ("or", "\"c\"=\"d\"")] (by decide)).symm.trans rfl |>.symm⟩

/-- The execute-and-commit tail never raises the params `ValueError`. -/
theorem cur_execute_run_ne_valueError {eng : Engine} {sql : String}
    {ps : Option (List PyVal)} {s : DBState} :
    (SQLite3DB.cur_execute_run eng sql ps s).1 ≠ .error .valueError := by
  unfold SQLite3DB.cur_execute_run SQLite3DB.conn_commit
  cases s.cur with
  | none => intro h; cases h
  | some rows =>
      dsimp only
      cases s.conn with
      | none => intro h; cases h
      | some u => intro h; cases h

/-- The coercion snippet never raises its own `ValueError`: a successful
`tuple(...)` call always yields a tuple, so the re-check cannot fail. -/
theorem coerce_params_ne_valueError (p : PyVal) :
    SQLite3DB.coerce_params p ≠ .error .valueError := by
  unfold SQLite3DB.coerce_params
  cases hp : p.isTuple with
  | true => simp
  | false =>
      simp only [Bool.false_eq_true, if_false]
      cases ht : pyTuple p with
      | error e =>
          have he := pyTuple_error_eq ht
          subst he
          intro h
          cases h
      | ok p2 =>
          have h2 := pyTuple_ok_isTuple ht
          simp [h2]

/-- C9: the `ValueError` branch guarding the parameter re-check in
`execute` and `executemany` is unreachable.  A successful `tuple(params)`
coercion always yields a tuple, so the `isinstance` re-check cannot
fail; a non-coercible value makes `tuple(params)` itself raise
`TypeError`.  Consequently neither `execute` nor `executemany` can ever
return that `ValueError`. -/
theorem params_value_error_branch_unreachable (p : PyVal) (eng : Engine)
    (sql : String) (s : DBState) :
    (∀ t, pyTuple p = .ok t → t.isTuple = true)
    ∧ (∀ e, pyTuple p = .error e → e = .typeError)
    ∧ SQLite3DB.coerce_params p ≠ .error .valueError
    ∧ (SQLite3DB.execute eng sql (some p) s).1 ≠ .error .valueError
    ∧ (SQLite3DB.executemany eng sql p s).1 ≠ .error .valueError := by
  refine ⟨fun t ht => pyTuple_ok_isTuple ht, fun e he => pyTuple_error_eq he,
          coerce_params_ne_valueError p, ?_, ?_⟩
  · unfold SQLite3DB.execute
    dsimp only
    split
    · rename_i heq
      intro h
      cases h
      exact coerce_params_ne_valueError p heq
    · exact cur_execute_run_ne_valueError
    · intro h; cases h
  · unfold SQLite3DB.executemany
    split
    · rename_i heq
      intro h
      cases h
      exact coerce_params_ne_valueError p heq
    · dsimp only
      rw [cur_executemany_call_one_arg]
      cases (if s.isConnect = true then s else (SQLite3DB.connect Option.none s).2).cur with
      | none => intro h; cases h
      | some c => intro h; cases h

/-- Witness for C9 at a coercible and at a non-coercible value. -/
theorem params_value_error_branch_unreachable_witness :
    (pyTuple (PyVal.list [PyVal.int 1]) = .ok (.tuple [PyVal.int 1])
      → (PyVal.tuple [PyVal.int 1]).isTuple = true)
    ∧ (pyTuple (PyVal.int 5) = .error .typeError → PyErr.typeError = .typeError)
    ∧ SQLite3DB.coerce_params (PyVal.int 5) ≠ .error .valueError :=
  ⟨(params_value_error_branch_unreachable (PyVal.list [PyVal.int 1])
      zeroCountEngine "select 1" (SQLite3DB.init "w9.db")).1 _,
   (params_value_error_branch_unreachable (PyVal.int 5)
      zeroCountEngine "select 1" (SQLite3DB.init "w9.db")).2.1 _,
   (params_value_error_branch_unreachable (PyVal.int 5)
      zeroCountEngine "select 1" (SQLite3DB.init "w9.db")).2.2.1⟩

/-- Zipping two lists truncated to their common length gives the same
pairs as zipping the lists directly. -/
theorem zip_take_min (a : List PyVal) :
    ∀ b : List PyVal,
      (a.take (min a.length b.length)).zip (b.take (min a.length b.length)) = a.zip b := by
  induction a with
  | nil => intro b; simp
  | cons x xs ih =>
      intro b
      cases b with
      | nil => simp
      | cons y ys =>
          simp only [List.length_cons, Nat.succ_min_succ, List.take_succ_cons,
            List.zip_cons_cons, ih]

/-- C10: `update` pairs columns with values by a positional zip that
truncates to the shorter sequence — surplus columns or values are
silently dropped from the SET clause, never an error — and, unlike
`insert`, it performs no tuple type check on `columns`/`values`: passing
lists behaves exactly like passing tuples, while `insert` raises
`TypeError` for a list. -/
theorem update_zip_truncates_and_skips_type_check (eng : Engine)
    (t : String) (cols vals : List PyVal) (s : DBState) :
    (SQLite3DB.update eng t (.tuple cols) (.tuple vals) .none s
      = SQLite3DB.update eng t
          (.tuple (cols.take (min cols.length vals.length)))
          (.tuple (vals.take (min cols.length vals.length))) .none s)
    ∧ (SQLite3DB.update eng t (.list cols) (.list vals) .none s
        = SQLite3DB.update eng t (.tuple cols) (.tuple vals) .none s)
    ∧ ((SQLite3DB.insert eng t (.list cols) (.tuple vals) s).1 = .error .typeError) := by
  refine ⟨?_, rfl, rfl⟩
  unfold SQLite3DB.update
  dsimp only [pyZip, pyIter]
  rw [zip_take_min]
